import Mathlib

/-!
Shallow embedding of the deep_seek_agent_mcp repository
(src/llm_client.py and src/main.py) and verification of the spec's claims.

The two Python files are near-identical variants.  Where their relevant
functions have the same control flow (the setup loop, the streaming event
handler, `run_query`, `main`) a single Lean definition embeds both, with the
doc comment naming both sources.  Where they differ (cleanup_servers: the
instance-based version in llm_client.py clears its internal list, the static
version in main.py does not) both variants are embedded separately.

External effects are modelled by oracles: `connectOk` tells whether a
handle's `connect()` call succeeds (raises otherwise), `cleanupOk` whether a
handle's `cleanup()` call succeeds.  Console output irrelevant to the claims
(banners, per-server progress prints) is not modelled; warnings printed by
`except` blocks are counted in `warnings` / `failures` fields.
-/

/-- The two MCP transport kinds of the source: `MCPServerSse` (a URL) and
`MCPServerStdio` (a command and an argument list). -/
inductive Transport where
  | sse (url : String)
  | stdio (command : String) (args : List String)
  deriving DecidableEq, Repr

/-- A connected MCP server object (`MCPServerSse` / `MCPServerStdio` instance):
its `name` and the transport parameters it was constructed with. -/
structure Handle where
  name : String
  transport : Transport
  deriving DecidableEq, Repr

/-- One entry value of the `mcpServers` mapping in `mcp.json`: the optional
keys `url`, `command`, `args`, `env` that the setup loop inspects
(src/llm_client.py lines 291-309, src/main.py lines 291-314). -/
structure ServerConfig where
  url : Option String
  command : Option String
  args : Option (List String)
  env : Option (List (String × String)) := none
  deriving DecidableEq, Repr

/-- One item of `mcp_config['mcpServers'].items()`: server name paired with
its configuration object. -/
abbrev Descriptor := String × ServerConfig

/-- The handle a descriptor would produce, mirroring the setup loop's
classification: `if 'url' in server_config` makes an SSE server, otherwise
`elif 'command' in server_config and 'args' in server_config` makes a STDIO
server, otherwise the entry matches no branch (`none`). -/
def handleOf? : Descriptor → Option Handle
  | (name, cfg) =>
    match cfg.url with
    | some u => some ⟨name, Transport.sse u⟩
    | none =>
      match cfg.command, cfg.args with
      | some c, some a => some ⟨name, Transport.stdio c a⟩
      | _, _ => none

/-- `MCPServerManager.create_sse_server` (src/llm_client.py lines 95-125):
constructs the server object, calls `connect()` (the `connectOk` oracle), and
appends it to the manager's `_servers` list only after `connect()` returned;
a `connect()` failure raises (`Except.error`), leaving the list unchanged.
main.py's static variant (lines 85-114) is identical except that the caller,
not this function, appends the returned handle; the loop embedding below
covers both.  The env-variable injection is an external side effect not
touched by any claim and is not modelled. -/
def create_sse_server (connectOk : Handle → Bool) (servers : List Handle)
    (name : String) (url : String) : Except Unit (List Handle) :=
  let server : Handle := ⟨name, Transport.sse url⟩
  if connectOk server then Except.ok (servers ++ [server]) else Except.error ()

/-- `MCPServerManager.create_stdio_server` (src/llm_client.py lines 127-158,
src/main.py lines 117-147), same shape as `create_sse_server`. -/
def create_stdio_server (connectOk : Handle → Bool) (servers : List Handle)
    (name : String) (command : String) (args : List String) :
    Except Unit (List Handle) :=
  let server : Handle := ⟨name, Transport.stdio command args⟩
  if connectOk server then Except.ok (servers ++ [server]) else Except.error ()

/-- Result of running the setup loop: the manager's server list, the number
of warnings printed by the `except` block around the loop, and the names of
the descriptors whose `connect()` was actually attempted, in order. -/
structure SetupResult where
  servers : List Handle
  warnings : Nat
  attempted : List String
  deriving DecidableEq, Repr

/-- The `for server_name, server_config in mcp_config['mcpServers'].items()`
loop of `AgentApp.setup` (src/llm_client.py lines 290-312) and
`WeatherApp.setup` (src/main.py lines 290-317), together with the single
`try/except` that encloses the WHOLE loop in both files: a `connect()`
failure propagates out of the loop body to that `except`, which prints one
warning and stops processing the remaining descriptors (the loop is
abandoned, not resumed).  An entry matching neither the `url` branch nor the
`command`+`args` branch falls through both conditionals and is skipped with
no output. -/
def setupLoop (connectOk : Handle → Bool) (servers : List Handle) :
    List Descriptor → SetupResult
  | [] => { servers := servers, warnings := 0, attempted := [] }
  | (name, cfg) :: rest =>
    match cfg.url with
    | some u =>
      match create_sse_server connectOk servers name u with
      | Except.ok servers2 =>
        let r := setupLoop connectOk servers2 rest
        { r with attempted := name :: r.attempted }
      | Except.error _ => { servers := servers, warnings := 1, attempted := [name] }
    | none =>
      match cfg.command, cfg.args with
      | some c, some a =>
        match create_stdio_server connectOk servers name c a with
        | Except.ok servers2 =>
          let r := setupLoop connectOk servers2 rest
          { r with attempted := name :: r.attempted }
        | Except.error _ => { servers := servers, warnings := 1, attempted := [name] }
      | _, _ => setupLoop connectOk servers rest

/-- `AgentApp.setup` / `WeatherApp.setup` restricted to registry
construction: runs the descriptor loop starting from an empty server list.
(Both functions afterwards create the assistant unconditionally; setup
returns normally whether or not a connect failed.) -/
def setup (connectOk : Handle → Bool) (descs : List Descriptor) : SetupResult :=
  setupLoop connectOk [] descs

/-- Whether a descriptor poses no obstacle to the loop: it is either
unrecognized (silently skipped) or its `connect()` succeeds. -/
def descOk (connectOk : Handle → Bool) (d : Descriptor) : Bool :=
  match handleOf? d with
  | some h => connectOk h
  | none => true

namespace Config

/-- `Config.MAX_TURNS` (src/llm_client.py line 54, src/main.py line 55). -/
def MAX_TURNS : Nat := 10

end Config

/-- One event seen by the streaming loop, as classified by its `isinstance`
checks: a `raw_response_event` carrying a `ResponseTextDeltaEvent`, one
carrying a `ResponseContentPartDoneEvent`, one carrying any other payload, or
an event whose `type` is not `"raw_response_event"` at all. -/
inductive Event where
  | textDelta (s : String)
  | contentPartDone
  | otherRaw
  | nonRaw
  deriving DecidableEq, Repr

/-- One step of the async event source feeding the streaming loop: either it
yields an event, or it raises (the mid-stream failure case). -/
inductive StreamItem where
  | ev (e : Event)
  | raiseErr
  deriving DecidableEq, Repr

/-- What the loop body of `ResponseHandler.handle_streaming_response` writes
to the sink for one event (src/llm_client.py lines 183-190, src/main.py lines
176-183): the delta text for a `ResponseTextDeltaEvent`, one newline for a
`ResponseContentPartDoneEvent`, nothing otherwise. -/
def renderEvent : Event → String
  | Event.textDelta s => s
  | Event.contentPartDone => "\n"
  | Event.otherRaw => ""
  | Event.nonRaw => ""

/-- The concatenation of everything `renderEvent` writes for a list of
events, in order. -/
def renderedOutput : List Event → String
  | [] => ""
  | e :: rest => renderEvent e ++ renderedOutput rest

/-- The concatenation of the `TextDelta` payloads of a list of events, in
order (the "segment content" of the spec). -/
def deltaConcat : List Event → String
  | [] => ""
  | Event.textDelta s :: rest => s ++ deltaConcat rest
  | _ :: rest => deltaConcat rest

/-- The sink output of the handler's event loop and whether its `except`
branch ran (printing the error report). -/
structure HandlerResult where
  output : String
  errorReported : Bool
  deriving DecidableEq, Repr

/-- The `async for event in result.stream_events()` loop of
`ResponseHandler.handle_streaming_response` with its surrounding
`try/except` (src/llm_client.py lines 182-193, src/main.py lines 175-186):
each yielded event is rendered and written immediately; if the source raises,
consumption stops, the `except` prints an error report, and the function
returns normally (the exception is not re-raised). -/
def consumeEvents : List StreamItem → HandlerResult
  | [] => { output := "", errorReported := false }
  | StreamItem.ev e :: rest =>
    let r := consumeEvents rest
    { output := renderEvent e ++ r.output, errorReported := r.errorReported }
  | StreamItem.raiseErr :: _ => { output := "", errorReported := true }

/-- `ResponseHandler.handle_streaming_response` (src/llm_client.py lines
174-193, src/main.py lines 167-186): prints the banner, then runs the event
loop. -/
def handle_streaming_response (items : List StreamItem) : HandlerResult :=
  let r := consumeEvents items
  { output := "流式回复:" ++ r.output, errorReported := r.errorReported }

/-- The external, deterministic model capability behind `Runner.run_streamed`
and `Runner.run`: for a query and a turn cap it determines the streamed event
sequence and the final output text.  Determinism (the same inputs give the
same answer in both modes) is exactly the deterministic-model premise of the
spec's mode-equivalence property. -/
structure ModelCap where
  streamItems : String → Nat → List StreamItem
  finalOutput : String → Nat → String

/-- Everything observable about one `run_query` call: the value it returns,
the `max_turns` argument it passed to the Runner call, what the streaming
handler wrote to the sink, whether the handler reported a stream error, and
whether an exception escaped `run_query` to its caller. -/
structure RunResult where
  finalText : String
  turnCapPassed : Nat
  sinkOutput : String
  streamErrorReported : Bool
  raised : Bool
  deriving DecidableEq, Repr

/-- `WeatherAssistant.run_query` (src/llm_client.py lines 239-274,
src/main.py lines 231-268): in streaming mode it calls
`Runner.run_streamed(..., max_turns=Config.MAX_TURNS, ...)`, hands the result
to `handle_streaming_response`, and returns `result.final_output`; in
blocking mode it awaits `Runner.run(..., max_turns=Config.MAX_TURNS, ...)`
and returns `result.final_output`.  Neither branch re-raises anything: the
streaming handler swallows stream errors, so `raised` is `false` on both
paths. -/
def run_query (m : ModelCap) (query : String) (streaming : Bool) : RunResult :=
  if streaming then
    let items := m.streamItems query Config.MAX_TURNS
    let h := handle_streaming_response items
    { finalText := m.finalOutput query Config.MAX_TURNS
      turnCapPassed := Config.MAX_TURNS
      sinkOutput := h.output
      streamErrorReported := h.errorReported
      raised := false }
  else
    { finalText := m.finalOutput query Config.MAX_TURNS
      turnCapPassed := Config.MAX_TURNS
      sinkOutput := m.finalOutput query Config.MAX_TURNS
      streamErrorReported := false
      raised := false }

/-- Result of one `cleanup_servers` pass: the handles whose `cleanup()` was
invoked, in order, and how many of those invocations failed (each failure is
caught by the per-handle `try/except`, which prints the error and lets the
loop continue; no exception leaves the function). -/
structure CleanupResult where
  cleaned : List Handle
  failures : Nat
  deriving DecidableEq, Repr

/-- The `for server in servers` loop shared verbatim by both cleanup
implementations (src/llm_client.py lines 162-168, src/main.py lines
156-162). -/
def cleanupLoop (cleanupOk : Handle → Bool) : List Handle → CleanupResult
  | [] => { cleaned := [], failures := 0 }
  | h :: rest =>
    let r := cleanupLoop cleanupOk rest
    { cleaned := h :: r.cleaned,
      failures := (if cleanupOk h then 0 else 1) + r.failures }

namespace LlmClient

/-- `MCPServerManager.cleanup_servers` of src/llm_client.py (lines 160-169):
runs the cleanup loop over the instance's `_servers` list and then executes
`self._servers.clear()`; returns the new list state together with the pass's
outcome. -/
def cleanup_servers (cleanupOk : Handle → Bool) (servers : List Handle) :
    List Handle × CleanupResult :=
  ([], cleanupLoop cleanupOk servers)

end LlmClient

namespace MainApp

/-- The static `MCPServerManager.cleanup_servers` of src/main.py (lines
149-162): runs the cleanup loop over the list it is given; the list is not
modified. -/
def cleanup_servers (cleanupOk : Handle → Bool) (servers : List Handle) :
    CleanupResult :=
  cleanupLoop cleanupOk servers

/-- `WeatherApp.cleanup` of src/main.py (lines 323-325): calls the static
`cleanup_servers` on `self.servers` and leaves `self.servers` unchanged. -/
def appCleanup (cleanupOk : Handle → Bool) (servers : List Handle) :
    List Handle × CleanupResult :=
  (servers, cleanup_servers cleanupOk servers)

end MainApp

/-- Observable steps of one session, for the lifecycle model of `main`. -/
inductive SessionAction where
  | setupA
  | interactA
  | cleanupA
  deriving DecidableEq, Repr

/-- A session stage: the trace of steps it performed and whether it ended by
raising an exception. -/
structure Step where
  trace : List SessionAction
  raised : Bool
  deriving DecidableEq, Repr

/-- Sequential composition: the second stage runs only if the first returned
normally. -/
def seqStep (a b : Step) : Step :=
  if a.raised then a else { trace := a.trace ++ b.trace, raised := b.raised }

/-- `try body finally fin` where `fin` never raises: `fin` always runs after
`body`, and `body`'s exception (if any) then resumes propagating. -/
def tryFinallyStep (body fin : Step) : Step :=
  { trace := body.trace ++ fin.trace, raised := body.raised }

/-- How the interactive loop ended: the user quit, pressed Ctrl-C
(`KeyboardInterrupt`), or a query raised (`Exception`). -/
inductive LoopEnd where
  | quit
  | interrupt
  | err
  deriving DecidableEq, Repr

/-- `app.setup()` as a session stage: it runs, and may raise (the loop's own
`try/except` catches config errors, but e.g. `assistant.initialize()` after
it can still raise; `setupOk = false` models any exception escaping
`setup`). -/
def setupStep (setupOk : Bool) : Step := { trace := [SessionAction.setupA], raised := ! setupOk }

/-- `app.run_interactive()` (src/llm_client.py lines 322-346, src/main.py
lines 327-360): whatever way the loop ends — quit command,
`KeyboardInterrupt`, or any `Exception` — is caught inside, so the stage
always returns normally. -/
def run_interactive (_e : LoopEnd) : Step := { trace := [SessionAction.interactA], raised := false }

/-- `app.cleanup()` as a stage: `cleanup_servers` catches every per-handle
failure, so the stage never raises. -/
def cleanupStep : Step := { trace := [SessionAction.cleanupA], raised := false }

/-- `main` (src/llm_client.py lines 348-355, src/main.py lines 362-375):
`try: await app.setup(); await app.run_interactive() finally: await
app.cleanup()`. -/
def mainSession (setupOk : Bool) (e : LoopEnd) : Step :=
  tryFinallyStep (seqStep (setupStep setupOk) (run_interactive e)) cleanupStep

/-- Concrete descriptors and oracles used by counterexamples and witnesses. -/
def dA : Descriptor := ("a", { url := some "http://a", command := none, args := none })

def dB : Descriptor := ("b", { url := some "http://b", command := none, args := none })

def dC : Descriptor := ("c", { url := some "http://c", command := none, args := none })

/-- A config entry with neither `url` nor `command`+`args`. -/
def dBadKeys : Descriptor := ("bad", { url := none, command := none, args := none })

/-- Handle that `dA` connects to. -/
def hA : Handle := ⟨"a", Transport.sse "http://a"⟩

/-- Every connection succeeds. -/
def cOkTrue : Handle → Bool := fun _ => true

/-- Only server "b" connects; "a" fails. -/
def cOkFailA : Handle → Bool := fun h => h.name == "b"

/-- Every server connects except "b". -/
def cOkFailB : Handle → Bool := fun h => ! (h.name == "b")

/-- A model whose event stream raises mid-stream after one text delta. -/
def mErr : ModelCap :=
  { streamItems := fun _ _ => [StreamItem.ev (Event.textDelta "part"), StreamItem.raiseErr]
    finalOutput := fun _ _ => "final" }

theorem str_empty_append (s : String) : "" ++ s = s := rfl

theorem str_append_empty (s : String) : s ++ "" = s := by
  cases s with
  | mk d =>
    show String.mk (d ++ []) = String.mk d
    rw [List.append_nil]

theorem str_append_assoc (a b c : String) : a ++ b ++ c = a ++ (b ++ c) := by
  cases a with
  | mk la =>
    cases b with
    | mk lb =>
      cases c with
      | mk lc =>
        show String.mk (la ++ lb ++ lc) = String.mk (la ++ (lb ++ lc))
        rw [List.append_assoc]

/-- The handle built from a descriptor carries the descriptor's name. -/
theorem handleOf?_name (name : String) (cfg : ServerConfig) (hd : Handle)
    (hh : handleOf? (name, cfg) = some hd) : hd.name = name := by
  obtain ⟨u, c, a, e⟩ := cfg
  cases u with
  | some url => simp [handleOf?] at hh; subst hh; rfl
  | none =>
    cases c with
    | some cmd =>
      cases a with
      | some argl => simp [handleOf?] at hh; subst hh; rfl
      | none => simp [handleOf?] at hh
    | none => simp [handleOf?] at hh

/-- Loop step, recognized descriptor whose `connect()` succeeds: the handle is
appended and the loop proceeds to the remaining descriptors. -/
theorem setupLoop_cons_ok (connectOk : Handle → Bool) (name : String)
    (cfg : ServerConfig) (rest : List Descriptor) (acc : List Handle) (hd : Handle)
    (hh : handleOf? (name, cfg) = some hd) (hc : connectOk hd = true) :
    setupLoop connectOk acc ((name, cfg) :: rest) =
      { setupLoop connectOk (acc ++ [hd]) rest with
        attempted := name :: (setupLoop connectOk (acc ++ [hd]) rest).attempted } := by
  obtain ⟨u, c, a, e⟩ := cfg
  cases u with
  | some url =>
    simp [handleOf?] at hh
    subst hh
    simp [setupLoop, create_sse_server, hc]
  | none =>
    cases c with
    | some cmd =>
      cases a with
      | some argl =>
        simp [handleOf?] at hh
        subst hh
        simp [setupLoop, create_stdio_server, hc]
      | none => simp [handleOf?] at hh
    | none => simp [handleOf?] at hh

/-- Loop step, recognized descriptor whose `connect()` fails: the exception
escapes the loop to the surrounding `except`, which prints one warning; the
handles accumulated so far are kept, and no further descriptor is processed. -/
theorem setupLoop_cons_fail (connectOk : Handle → Bool) (name : String)
    (cfg : ServerConfig) (rest : List Descriptor) (acc : List Handle) (hd : Handle)
    (hh : handleOf? (name, cfg) = some hd) (hc : connectOk hd = false) :
    setupLoop connectOk acc ((name, cfg) :: rest) =
      { servers := acc, warnings := 1, attempted := [name] } := by
  obtain ⟨u, c, a, e⟩ := cfg
  cases u with
  | some url =>
    simp [handleOf?] at hh
    subst hh
    simp [setupLoop, create_sse_server, hc]
  | none =>
    cases c with
    | some cmd =>
      cases a with
      | some argl =>
        simp [handleOf?] at hh
        subst hh
        simp [setupLoop, create_stdio_server, hc]
      | none => simp [handleOf?] at hh
    | none => simp [handleOf?] at hh

/-- Loop step, unrecognized descriptor: it matches neither conditional branch
and the loop moves on with no output and no state change. -/
theorem setupLoop_cons_skip (connectOk : Handle → Bool) (name : String)
    (cfg : ServerConfig) (rest : List Descriptor) (acc : List Handle)
    (hh : handleOf? (name, cfg) = none) :
    setupLoop connectOk acc ((name, cfg) :: rest) = setupLoop connectOk acc rest := by
  obtain ⟨u, c, a, e⟩ := cfg
  cases u with
  | some url => simp [handleOf?] at hh
  | none =>
    cases c with
    | some cmd =>
      cases a with
      | some argl => simp [handleOf?] at hh
      | none => simp [setupLoop]
    | none => cases a <;> simp [setupLoop]

/-- Structural characterization of the setup loop: the handles it adds extend
the accumulator by an order-preserving selection of the recognized
descriptors' handles, all of which connected successfully; their names form
an initial segment of the attempted-connection list; each attempted
connection either produced a handle or the single warning; and no more
connections are attempted than there are descriptors. -/
theorem setupLoop_spec (connectOk : Handle → Bool) (descs : List Descriptor) :
    ∀ acc, ∃ l : List Handle,
      (setupLoop connectOk acc descs).servers = acc ++ l ∧
      l.Sublist (descs.filterMap handleOf?) ∧
      (∀ h ∈ l, connectOk h = true) ∧
      ((l.map Handle.name) <+: (setupLoop connectOk acc descs).attempted) ∧
      (l.length + (setupLoop connectOk acc descs).warnings =
        (setupLoop connectOk acc descs).attempted.length) ∧
      (setupLoop connectOk acc descs).attempted.length ≤ descs.length ∧
      (setupLoop connectOk acc descs).warnings ≤ 1 := by
  induction descs with
  | nil =>
    intro acc
    exact ⟨[], by simp [setupLoop], by simp, by simp, by simp [setupLoop],
      by simp [setupLoop], by simp [setupLoop], by simp [setupLoop]⟩
  | cons d rest ih =>
    intro acc
    obtain ⟨name, cfg⟩ := d
    cases hO : handleOf? (name, cfg) with
    | none =>
      rw [setupLoop_cons_skip connectOk name cfg rest acc hO]
      obtain ⟨l, h1, h2, h3, h4, h5, h6, h7⟩ := ih acc
      refine ⟨l, h1, ?_, h3, h4, h5, ?_, h7⟩
      · rw [List.filterMap_cons_none hO]
        exact h2
      · exact le_trans h6 (by simp)
    | some hd =>
      cases hcb : connectOk hd with
      | true =>
        rw [setupLoop_cons_ok connectOk name cfg rest acc hd hO hcb]
        obtain ⟨l, h1, h2, h3, h4, h5, h6, h7⟩ := ih (acc ++ [hd])
        refine ⟨hd :: l, ?_, ?_, ?_, ?_, ?_, ?_, ?_⟩
        · simpa [List.append_assoc] using h1
        · rw [List.filterMap_cons_some hO]
          exact List.Sublist.cons₂ hd h2
        · intro x hmem
          rcases List.mem_cons.mp hmem with hx | hx
          · subst hx; exact hcb
          · exact h3 _ hx
        · obtain ⟨t, ht⟩ := h4
          refine ⟨t, ?_⟩
          simp [List.map_cons, List.cons_append, ht,
            handleOf?_name name cfg hd hO]
        · simp
          omega
        · simp
          omega
        · simpa using h7
      | false =>
        rw [setupLoop_cons_fail connectOk name cfg rest acc hd hO hcb]
        refine ⟨[], by simp, by simp, by simp, ?_, by simp, by simp, by simp⟩
        exact ⟨[name], by simp⟩

/-- If every descriptor before some recognized descriptor `d` is either
skipped or connects, and `d`'s `connect()` fails, the loop ends at `d`: it
keeps the prefix's handles, prints exactly one warning, attempts only the
prefix's connections plus `d`'s, and never touches the descriptors after
`d`. -/
theorem setupLoop_first_fail (connectOk : Handle → Bool) (d : Descriptor)
    (hd : Handle) (post : List Descriptor)
    (hh : handleOf? d = some hd) (hc : connectOk hd = false) :
    ∀ pre : List Descriptor, (∀ d' ∈ pre, descOk connectOk d' = true) →
      ∀ acc, setupLoop connectOk acc (pre ++ d :: post) =
        { servers := acc ++ pre.filterMap handleOf?,
          warnings := 1,
          attempted := (pre.filterMap handleOf?).map Handle.name ++ [d.1] } := by
  intro pre
  induction pre with
  | nil =>
    intro _ acc
    obtain ⟨name, cfg⟩ := d
    rw [List.nil_append, setupLoop_cons_fail connectOk name cfg post acc hd hh hc]
    simp
  | cons d1 pre' ih =>
    intro hpre acc
    obtain ⟨n1, c1⟩ := d1
    have hd1 : descOk connectOk (n1, c1) = true := hpre _ (List.mem_cons_self _ _)
    have hrest : ∀ d' ∈ pre', descOk connectOk d' = true :=
      fun d' hmem => hpre d' (List.mem_cons_of_mem _ hmem)
    cases hO : handleOf? (n1, c1) with
    | none =>
      rw [List.cons_append, setupLoop_cons_skip connectOk n1 c1 _ acc hO,
        ih hrest acc, List.filterMap_cons_none hO]
    | some h1 =>
      have hc1 : connectOk h1 = true := by
        unfold descOk at hd1
        rw [hO] at hd1
        exact hd1
      rw [List.cons_append, setupLoop_cons_ok connectOk n1 c1 _ acc h1 hO hc1,
        ih hrest (acc ++ [h1]), List.filterMap_cons_some hO]
      simp [List.append_assoc, handleOf?_name n1 c1 h1 hO]

/-- A descriptor with neither recognized key shape is invisible to the loop:
deleting it from the batch changes nothing about the loop's result. -/
theorem setup_skip_invalid (connectOk : Handle → Bool) (d : Descriptor)
    (hinv : handleOf? d = none) :
    ∀ (l1 l2 : List Descriptor) (acc : List Handle),
      setupLoop connectOk acc (l1 ++ d :: l2) = setupLoop connectOk acc (l1 ++ l2) := by
  intro l1
  induction l1 with
  | nil =>
    intro l2 acc
    obtain ⟨name, cfg⟩ := d
    rw [List.nil_append, List.nil_append,
      setupLoop_cons_skip connectOk name cfg l2 acc hinv]
  | cons d1 l1' ih =>
    intro l2 acc
    obtain ⟨n1, c1⟩ := d1
    cases hO : handleOf? (n1, c1) with
    | none =>
      rw [List.cons_append, List.cons_append,
        setupLoop_cons_skip connectOk n1 c1 _ acc hO,
        setupLoop_cons_skip connectOk n1 c1 _ acc hO, ih l2 acc]
    | some h1 =>
      cases hc1 : connectOk h1 with
      | true =>
        rw [List.cons_append, List.cons_append,
          setupLoop_cons_ok connectOk n1 c1 _ acc h1 hO hc1,
          setupLoop_cons_ok connectOk n1 c1 _ acc h1 hO hc1,
          ih l2 (acc ++ [h1])]
      | false =>
        rw [List.cons_append, List.cons_append,
          setupLoop_cons_fail connectOk n1 c1 _ acc h1 hO hc1,
          setupLoop_cons_fail connectOk n1 c1 _ acc h1 hO hc1]

/-- C1, counterexample.  Descriptor list `[dA, dB]` where `dA`'s `connect()`
fails and `dB`'s would succeed (`descOk cOkFailA dB = true`): registry
construction attempts only "a" — it does NOT continue to attempt the
remaining descriptor "b", contradicting the claim that only the failing
descriptor is skipped. -/
theorem claim_C1_cex :
    ((setup cOkFailA [dA, dB]).attempted = ["a"]) ∧
    ("b" ∉ (setup cOkFailA [dA, dB]).attempted) ∧
    descOk cOkFailA dB = true := by decide

/-- C1, amended.  A descriptor's connection failure is caught by the
`try/except` around the WHOLE loop and reported as exactly one warning;
setup returns normally keeping the handles connected before the failure, but
every descriptor after the failing one is skipped — no further connection is
attempted (the attempted list ends at the failing descriptor's name). -/
theorem claim_C1_amended (connectOk : Handle → Bool) (pre : List Descriptor)
    (d : Descriptor) (post : List Descriptor) (hd : Handle)
    (hh : handleOf? d = some hd) (hc : connectOk hd = false)
    (hpre : ∀ d' ∈ pre, descOk connectOk d' = true) :
    setup connectOk (pre ++ d :: post) =
      { servers := pre.filterMap handleOf?,
        warnings := 1,
        attempted := (pre.filterMap handleOf?).map Handle.name ++ [d.1] } := by
  unfold setup
  rw [setupLoop_first_fail connectOk d hd post hh hc pre hpre []]
  simp

/-- C1 witness: the amended statement applied to the concrete batch
`[dA] ++ dB :: [dC]` where only "b" fails to connect. -/
theorem claim_C1_amended_witness :
    setup cOkFailB ([dA] ++ dB :: [dC]) =
      { servers := [dA].filterMap handleOf?,
        warnings := 1,
        attempted := ([dA].filterMap handleOf?).map Handle.name ++ [dB.1] } :=
  claim_C1_amended cOkFailB [dA] dB [dC] ⟨"b", Transport.sse "http://b"⟩
    (by decide) (by decide) (by decide)

/-- C6: every handle in the registry's server list had `connect()` complete
successfully before being added (`connectOk` holds of it), the list is an
order-preserving selection of the descriptors' handles in declaration order,
and its names form an initial segment of the connection-attempt order. -/
theorem claim_C6 (connectOk : Handle → Bool) (descs : List Descriptor) :
    (∀ h ∈ (setup connectOk descs).servers, connectOk h = true) ∧
    ((setup connectOk descs).servers.Sublist (descs.filterMap handleOf?)) ∧
    (((setup connectOk descs).servers.map Handle.name) <+:
      (setup connectOk descs).attempted) := by
  obtain ⟨l, h1, h2, h3, h4, h5, h6, h7⟩ := setupLoop_spec connectOk descs []
  rw [List.nil_append] at h1
  unfold setup
  rw [h1]
  exact ⟨h3, h2, h4⟩

/-- C6 witness: on the concrete batch `[dA]` with all connections
succeeding, the handle `hA` is in the registry, so the theorem yields that
its `connect()` succeeded. -/
theorem claim_C6_witness : cOkTrue hA = true :=
  (claim_C6 cOkTrue [dA]).1 hA (by decide)

/-- C7, counterexample.  Batch `[dA, dB, dC]` where only "b" fails: the loop
aborts at "b", so the registry has 1 handle and 1 warning was reported, but
there were 3 descriptors — the claimed count equation fails. -/
theorem claim_C7_cex :
    (setup cOkFailB [dA, dB, dC]).servers.length +
      (setup cOkFailB [dA, dB, dC]).warnings ≠
      ([dA, dB, dC] : List Descriptor).length := by decide

/-- C7, amended.  After construction the registry contains exactly the
attempted handles whose `connect()` succeeded, and successful-handle count
plus warning count equals the number of ATTEMPTED connections — which may be
fewer than the descriptor count, because unrecognized descriptors are
skipped without a warning and descriptors after the first failure are never
attempted; at most one warning is ever reported. -/
theorem claim_C7_amended (connectOk : Handle → Bool) (descs : List Descriptor) :
    (∀ h ∈ (setup connectOk descs).servers, connectOk h = true) ∧
    ((setup connectOk descs).servers.length + (setup connectOk descs).warnings =
      (setup connectOk descs).attempted.length) ∧
    ((setup connectOk descs).attempted.length ≤ descs.length) ∧
    ((setup connectOk descs).warnings ≤ 1) := by
  obtain ⟨l, h1, h2, h3, h4, h5, h6, h7⟩ := setupLoop_spec connectOk descs []
  rw [List.nil_append] at h1
  unfold setup
  rw [h1]
  exact ⟨h3, h5, h6, h7⟩

/-- C7 witness: the amended count equation evaluated on the concrete
aborting batch `[dA, dB, dC]` with "b" failing (1 handle + 1 warning = 2
attempts). -/
theorem claim_C7_amended_witness :
    (setup cOkFailB [dA, dB, dC]).servers.length +
      (setup cOkFailB [dA, dB, dC]).warnings =
      (setup cOkFailB [dA, dB, dC]).attempted.length :=
  (claim_C7_amended cOkFailB [dA, dB, dC]).2.1

/-- C8, counterexample.  Batch `[dBadKeys, dA]`: the entry with neither
`url` nor `command`+`args` is skipped, but ZERO warnings are reported —
contradicting "skipped with a reported warning" — while `dA`'s handle is
still built. -/
theorem claim_C8_cex :
    ((setup cOkTrue [dBadKeys, dA]).warnings = 0) ∧
    ((setup cOkTrue [dBadKeys, dA]).servers = [hA]) := by decide

/-- C8, amended.  A descriptor with neither `url` nor `command`+`args` is
skipped SILENTLY (no warning, no crash): the construction result is exactly
as if the entry were absent, so all other valid descriptors in the batch are
still processed identically. -/
theorem claim_C8_amended (connectOk : Handle → Bool) (d : Descriptor)
    (hinv : handleOf? d = none) (l1 l2 : List Descriptor) :
    setup connectOk (l1 ++ d :: l2) = setup connectOk (l1 ++ l2) := by
  unfold setup
  exact setup_skip_invalid connectOk d hinv l1 l2 []

/-- C8 witness: the amended statement on the concrete batch with `dBadKeys`
between `dA` and `dB`. -/
theorem claim_C8_amended_witness :
    setup cOkTrue ([dA] ++ dBadKeys :: [dB]) = setup cOkTrue ([dA] ++ [dB]) :=
  claim_C8_amended cOkTrue dBadKeys (by decide) [dA] [dB]

/-- A stream that never raises is fully consumed: the sink receives every
event's rendering in arrival order and no error is reported. -/
theorem consumeEvents_pure (es : List Event) :
    consumeEvents (es.map StreamItem.ev) =
      { output := renderedOutput es, errorReported := false } := by
  induction es with
  | nil => rfl
  | cons e rest ih => simp [consumeEvents, renderedOutput, ih]

/-- A stream that raises after `good` events: the loop stops there, the sink
keeps exactly the renderings already flushed, and the error is reported. -/
theorem consumeEvents_error (good : List Event) (rest : List StreamItem) :
    consumeEvents (good.map StreamItem.ev ++ StreamItem.raiseErr :: rest) =
      { output := renderedOutput good, errorReported := true } := by
  induction good with
  | nil => rfl
  | cons e g ih => simp [consumeEvents, renderedOutput, ih]

/-- Within one segment (no `SegmentDone` event) the rendered output is
exactly the concatenation of the `TextDelta` payloads. -/
theorem renderedOutput_no_done (es : List Event)
    (h : Event.contentPartDone ∉ es) : renderedOutput es = deltaConcat es := by
  induction es with
  | nil => rfl
  | cons e rest ih =>
    have hne : e ≠ Event.contentPartDone := fun he => h (he ▸ List.mem_cons_self _ _)
    have hrest : Event.contentPartDone ∉ rest := fun hm => h (List.mem_cons_of_mem _ hm)
    cases e with
    | textDelta s => simp [renderedOutput, deltaConcat, renderEvent, ih hrest]
    | contentPartDone => exact absurd rfl hne
    | otherRaw => simp [renderedOutput, deltaConcat, renderEvent, ih hrest, str_empty_append]
    | nonRaw => simp [renderedOutput, deltaConcat, renderEvent, ih hrest, str_empty_append]

theorem renderedOutput_append (a b : List Event) :
    renderedOutput (a ++ b) = renderedOutput a ++ renderedOutput b := by
  induction a with
  | nil => simp [renderedOutput, str_empty_append]
  | cons e rest ih => simp [renderedOutput, ih, str_append_assoc]

/-- C10: in the streaming handler's event loop, `TextDelta` texts are
written in arrival order with nothing added — the output of one segment is
exactly the concatenation of its `TextDelta` payloads; a `SegmentDone`
(`ResponseContentPartDoneEvent`) emits exactly one newline; every other
event kind writes nothing. -/
theorem claim_C10 (es : List Event) (hseg : Event.contentPartDone ∉ es) :
    ((consumeEvents (es.map StreamItem.ev)).output = deltaConcat es) ∧
    ((consumeEvents (es.map StreamItem.ev)).errorReported = false) ∧
    ((consumeEvents ((es ++ [Event.contentPartDone]).map StreamItem.ev)).output =
      deltaConcat es ++ "\n") ∧
    (∀ e, (∀ s, e ≠ Event.textDelta s) → e ≠ Event.contentPartDone →
      renderEvent e = "") := by
  refine ⟨?_, ?_, ?_, ?_⟩
  · rw [consumeEvents_pure]
    exact renderedOutput_no_done es hseg
  · rw [consumeEvents_pure]
  · rw [consumeEvents_pure, renderedOutput_append, renderedOutput_no_done es hseg]
    simp [renderedOutput, renderEvent, str_append_empty]
  · intro e hs hd
    cases e with
    | textDelta s => exact absurd rfl (hs s)
    | contentPartDone => exact absurd rfl hd
    | otherRaw => rfl
    | nonRaw => rfl

/-- C10 witness: the per-segment concatenation property on a concrete
segment with two deltas and an ignored event between them. -/
theorem claim_C10_witness :
    (consumeEvents ([Event.textDelta "ab", Event.otherRaw,
        Event.textDelta "c"].map StreamItem.ev)).output =
      deltaConcat [Event.textDelta "ab", Event.otherRaw, Event.textDelta "c"] :=
  (claim_C10 [Event.textDelta "ab", Event.otherRaw, Event.textDelta "c"]
    (by decide)).1

/-- C2, counterexample.  Against the model `mErr`, whose event stream raises
mid-stream, `run_query` in streaming mode does NOT propagate the error to
its caller as the run's outcome: no exception escapes (`raised = false`) and
the model's `final_output` is returned — the error was caught and reported
inside `handle_streaming_response`. -/
theorem claim_C2_cex :
    ((run_query mErr "q" true).raised = false) ∧
    ((run_query mErr "q" true).streamErrorReported = true) ∧
    ((run_query mErr "q" true).finalText = "final") := by decide

/-- C2, amended.  If the event source raises mid-stream, the streaming
handler stops consuming, reports the error (it is not silently swallowed),
and `run_query` returns normally with `result.final_output` — the error does
NOT propagate to `run_query`'s caller; the output already written to the
sink (the renderings of the events consumed before the failure) is kept,
never retracted. -/
theorem claim_C2_amended (m : ModelCap) (q : String) (good : List Event)
    (rest : List StreamItem)
    (hstream : m.streamItems q Config.MAX_TURNS =
      good.map StreamItem.ev ++ StreamItem.raiseErr :: rest) :
    ((run_query m q true).raised = false) ∧
    ((run_query m q true).streamErrorReported = true) ∧
    ((run_query m q true).sinkOutput = "流式回复:" ++ renderedOutput good) ∧
    ((run_query m q true).finalText = m.finalOutput q Config.MAX_TURNS) := by
  simp [run_query, handle_streaming_response, hstream, consumeEvents_error]

/-- C2 witness: the amended statement against the concrete mid-stream
failing model `mErr`. -/
theorem claim_C2_amended_witness :
    ((run_query mErr "q" true).raised = false) ∧
    ((run_query mErr "q" true).streamErrorReported = true) ∧
    ((run_query mErr "q" true).sinkOutput =
      "流式回复:" ++ renderedOutput [Event.textDelta "part"]) ∧
    ((run_query mErr "q" true).finalText = mErr.finalOutput "q" Config.MAX_TURNS) :=
  claim_C2_amended mErr "q" [Event.textDelta "part"] [] rfl

/-- C3: against a deterministic model, a streaming run and a blocking run of
`run_query` on the same query return the same final answer text, and both
pass `Config.MAX_TURNS` as the turn cap of their Runner call. -/
theorem claim_C3 (m : ModelCap) (query : String) :
    ((run_query m query true).finalText = (run_query m query false).finalText) ∧
    ((run_query m query true).turnCapPassed = Config.MAX_TURNS) ∧
    ((run_query m query false).turnCapPassed = Config.MAX_TURNS) :=
  ⟨rfl, rfl, rfl⟩

theorem cleanupLoop_cleaned (cleanupOk : Handle → Bool) (servers : List Handle) :
    (cleanupLoop cleanupOk servers).cleaned = servers := by
  induction servers with
  | nil => rfl
  | cons h rest ih => simp [cleanupLoop, ih]

theorem cleanupLoop_failures (cleanupOk : Handle → Bool) (servers : List Handle) :
    (cleanupLoop cleanupOk servers).failures =
      (servers.filter (fun h => ! cleanupOk h)).length := by
  induction servers with
  | nil => rfl
  | cons h rest ih =>
    cases hc : cleanupOk h with
    | true => simp [cleanupLoop, hc, ih]
    | false =>
      simp [cleanupLoop, hc, ih]
      omega

/-- C4: both teardown implementations invoke `cleanup()` on every handle in
registration order — the loop continues through all remaining handles no
matter which cleanups fail — each failure being caught and counted; no
failure propagates out (the functions return a plain result, there is no
error path in their type). -/
theorem claim_C4 (cleanupOk : Handle → Bool) (servers : List Handle) :
    ((LlmClient.cleanup_servers cleanupOk servers).2.cleaned = servers) ∧
    ((MainApp.cleanup_servers cleanupOk servers).cleaned = servers) ∧
    ((LlmClient.cleanup_servers cleanupOk servers).2.failures =
      (servers.filter (fun h => ! cleanupOk h)).length) :=
  ⟨cleanupLoop_cleaned cleanupOk servers, cleanupLoop_cleaned cleanupOk servers,
    cleanupLoop_failures cleanupOk servers⟩

/-- C9, counterexample.  In src/main.py the registry is the bare
`self.servers` list and the static `cleanup_servers` does not clear it, so a
second `WeatherApp.cleanup()` call invokes `cleanup()` on the handle `hA`
again — it does perform transport operations, contradicting the claim. -/
theorem claim_C9_cex :
    ((MainApp.appCleanup cOkTrue
        (MainApp.appCleanup cOkTrue [hA]).1).2.cleaned = [hA]) ∧
    ([hA] ≠ ([] : List Handle)) := by decide

/-- C9, amended.  For the instance-based manager of src/llm_client.py —
whose `cleanup_servers` ends with `self._servers.clear()` — a second call is
safe exactly as claimed: it invokes no handle's `cleanup()` and reports zero
failures.  For src/main.py's static variant the claim fails (see the
counterexample): the caller's list is not cleared, so a second call repeats
every transport cleanup. -/
theorem claim_C9_amended (cleanupOk : Handle → Bool) (servers : List Handle) :
    LlmClient.cleanup_servers cleanupOk
        (LlmClient.cleanup_servers cleanupOk servers).1 =
      ([], { cleaned := [], failures := 0 }) := rfl

/-- C5: on every execution path of `main` — setup succeeded or raised, and
the interactive loop ended by quit, interrupt, or error — teardown is
attempted exactly once, at session end. -/
theorem claim_C5 (setupOk : Bool) (e : LoopEnd) :
    ((mainSession setupOk e).trace.count SessionAction.cleanupA = 1) ∧
    ((mainSession setupOk e).trace.getLast? = some SessionAction.cleanupA) := by
  cases setupOk <;> cases e <;> decide
